import Mathlib

/-!
Shallow embedding of `src/src/lib.rs` of the pg_summarize extension.

The Rust source exposes one entry point, `summarize`, which

1. reads three settings (`pg_summarizer.api_key`, `pg_summarizer.model`,
   `pg_summarizer.prompt`) through `Spi::get_one`,
2. builds a chat-completion JSON payload with `json!`,
3. POSTs it with the `reqwest` blocking client, and
4. extracts `choices[0].message.content` from the response JSON.

Here JSON values are an inductive `Json` with `serde_json`'s `Index`
semantics (indexing a non-object / non-array, or a missing key / index,
yields `null` rather than panicking).  The settings store and the HTTP
transport are abstract functions passed as parameters; `make_api_call`
and `summarize` additionally return the list of request bodies that were
handed to the transport, so that "no request was sent" is expressible.
-/

/-- JSON trees, mirroring `serde_json::Value` (numbers collapsed to `Int`,
which is irrelevant for this program: it never reads a number). -/
inductive Json where
  | null : Json
  | bool : Bool → Json
  | num : Int → Json
  | str : String → Json
  | arr : List Json → Json
  | obj : List (String × Json) → Json
deriving Repr

namespace Json

/-- First value bound to `key` in an association list of object fields. -/
def lookupField : List (String × Json) → String → Option Json
  | [], _ => none
  | (k, v) :: rest, key => if k = key then some v else lookupField rest key

/-- `value[key]` for a string key, as in `serde_json`'s `Index for str`:
a non-object, or an object without the key, yields `null`. -/
def idx (j : Json) (key : String) : Json :=
  match j with
  | .obj fields =>
    match lookupField fields key with
    | some v => v
    | none => .null
  | _ => .null

/-- `value[i]` for a `usize` index, as in `serde_json`'s `Index for usize`:
a non-array, or an index out of bounds, yields `null`. -/
def idxN (j : Json) (i : Nat) : Json :=
  match j with
  | .arr xs =>
    match xs.get? i with
    | some v => v
    | none => .null
  | _ => .null

/-- `Value::as_str`. -/
def asStr : Json → Option String
  | .str s => some s
  | _ => none

end Json

/-- `response_json["choices"][0]["message"]["content"].as_str()`
(line 79 of `lib.rs`). -/
def extractContent (j : Json) : Option String :=
  ((((j.idx "choices").idxN 0).idx "message").idx "content").asStr

/-- The `json!` literal of `make_api_call` (lines 49–61 of `lib.rs`):
model, then a two-element `messages` array (system prompt, wrapped user
text). -/
def requestBody (model prompt input : String) : Json :=
  .obj
    [("model", .str model),
     ("messages",
       .arr
         [.obj [("role", .str "system"), ("content", .str prompt)],
          .obj
            [("role", .str "user"),
             ("content", .str ("<text>" ++ input ++ "</text>"))]])]

/-- Per-character validity for an HTTP header value
(`http::header::HeaderValue` accepts horizontal tab and every byte in
32..=255 other than DEL).  Every byte of a multi-byte UTF-8 character is
≥ 0x80 and hence valid, so the byte-level rule is equivalent to this
character-level one: tab, a codepoint in 32..=126, or a codepoint
≥ 128. -/
def headerCharOk (c : Char) : Bool :=
  c.toNat == 9 || (32 ≤ c.toNat && c.toNat ≠ 127) || 128 ≤ c.toNat

/-- `HeaderValue::from_str` succeeds iff every byte of the string is a
valid header-value byte. -/
def headerValueOk (s : String) : Bool :=
  s.toList.all headerCharOk

/-- `StatusCode::is_success`: 200 ≤ status < 300. -/
def statusIsSuccess (status : Nat) : Bool :=
  200 ≤ status && status < 300

/-- Outcome of `response.json::<serde_json::Value>()`: either the body is
not parseable JSON (reqwest decode error propagated by `?`) or a parsed
tree. -/
inductive BodyParse where
  | invalid : BodyParse
  | parsed : Json → BodyParse
deriving Repr

/-- What the transport does with one request: `send()?` fails, or an HTTP
response with a status code and a body arrives. -/
inductive TransportResult where
  | sendError : TransportResult
  | response : Nat → BodyParse → TransportResult
deriving Repr

/-- The distinguishable failures of `make_api_call`.  `headerCons` is the
`HeaderValue::from_str(...)?` failure, `sendFailed` the `send()?` failure,
`bodyDecode` the `response.json()?` failure, `httpStatus` the
`"Request failed with status: {}"` error, `responseFormat` the
`"Unexpected response format"` error. -/
inductive ApiError where
  | headerCons : ApiError
  | sendFailed : ApiError
  | bodyDecode : ApiError
  | httpStatus : Nat → ApiError
  | responseFormat : ApiError
deriving Repr, DecidableEq

/-- `make_api_call` (lines 43–87 of `lib.rs`), over an abstract transport.
Returns the `Result` together with the list of request bodies handed to
the transport (empty when header construction fails, since the `?` on
line 68 returns before `send`). -/
def make_api_call (input api_key model prompt : String)
    (tr : Json → TransportResult) : Except ApiError String × List Json :=
  let request_body := requestBody model prompt input
  if headerValueOk ("Bearer " ++ api_key) then
    match tr request_body with
    | .sendError => (.error .sendFailed, [request_body])
    | .response status body =>
      if statusIsSuccess status then
        match body with
        | .invalid => (.error .bodyDecode, [request_body])
        | .parsed j =>
          match extractContent j with
          | some summary => (.ok summary, [request_body])
          | none => (.error .responseFormat, [request_body])
      else (.error (.httpStatus status), [request_body])
  else (.error .headerCons, [])

/-- Result of one `Spi::get_one::<&str>(...)` call: `ok v` is
`Ok(Some v)` / `Ok(None)` according to `v`, `err` is `Err(_)`. -/
inductive SpiResult where
  | ok : Option String → SpiResult
  | err : SpiResult
deriving Repr, DecidableEq

/-- Why `summarize` aborts: the `.expect` on an `Spi` error for the
api key (line 16), the `.expect` on a null api key (line 17), or the
`panic!("Error: {}", e)` on an api-call failure (line 39). -/
inductive FatalReason where
  | spiErrApiKey : FatalReason
  | nullApiKey : FatalReason
  | apiError : ApiError → FatalReason
deriving Repr, DecidableEq

/-- What one invocation of `summarize` does: return a string normally,
or abort (in the extension, a Rust panic that the host turns into an
aborted query). -/
inductive SummarizeOutcome where
  | ok : String → SummarizeOutcome
  | fatal : FatalReason → SummarizeOutcome
deriving Repr, DecidableEq

/-- The `model` actually used (lines 19–22 of `lib.rs`): the setting's
value when the lookup returns a non-null string, `"gpt-3.5-turbo"`
otherwise. -/
def resolvedModel (settings : String → SpiResult) : String :=
  match settings "pg_summarizer.model" with
  | .ok (some model_name) => model_name
  | _ => "gpt-3.5-turbo"

/-- The built-in system prompt (lines 28–33 of `lib.rs`; Rust's
`\`-newline string continuations join the pieces with no inserted
characters). -/
def defaultPrompt : String :=
  "You are an AI summarizing tool. Your purpose is to summarize the <text> tag, not to engage in conversation or discussion. Please read the <text> carefully. Then, summarize the key points. Focus on capturing the most important information as concisely as possible."

/-- The `prompt` actually used (lines 24–35 of `lib.rs`). -/
def resolvedPrompt (settings : String → SpiResult) : String :=
  match settings "pg_summarizer.prompt" with
  | .ok (some prompt_str) => prompt_str
  | _ => defaultPrompt

/-- `summarize` (lines 13–41 of `lib.rs`), over an abstract settings
store and transport, with the list of request bodies handed to the
transport. -/
def summarize (input : String) (settings : String → SpiResult)
    (tr : Json → TransportResult) : SummarizeOutcome × List Json :=
  match settings "pg_summarizer.api_key" with
  | .err => (.fatal .spiErrApiKey, [])
  | .ok none => (.fatal .nullApiKey, [])
  | .ok (some api_key) =>
    match make_api_call input api_key (resolvedModel settings)
        (resolvedPrompt settings) tr with
    | (.ok summary, sent) => (.ok summary, sent)
    | (.error e, sent) => (.fatal (.apiError e), sent)

/-! ## Helper lemmas shared by the claim theorems -/

/-- When header construction succeeds, `make_api_call` hands exactly one
request body — the `json!` payload — to the transport, whatever the
transport answers. -/
theorem make_api_call_sent_of_headerOk
    (input api_key model prompt : String) (tr : Json → TransportResult)
    (h : headerValueOk ("Bearer " ++ api_key) = true) :
    (make_api_call input api_key model prompt tr).2
      = [requestBody model prompt input] := by
  unfold make_api_call
  simp only [h, if_true]
  cases htr : tr (requestBody model prompt input) with
  | sendError => rfl
  | response status body =>
    by_cases hs : statusIsSuccess status = true
    · simp only [hs, if_true]
      cases body with
      | invalid => rfl
      | parsed j =>
        cases hc : extractContent j with
        | none => simp [hc]
        | some s => simp [hc]
    · simp [hs]

/-- When the api key is present and header construction succeeds,
`summarize` sends exactly the payload built from the resolved model and
prompt. -/
theorem summarize_sent_of_headerOk
    (input api_key : String) (settings : String → SpiResult)
    (tr : Json → TransportResult)
    (hkey : settings "pg_summarizer.api_key" = .ok (some api_key))
    (hheader : headerValueOk ("Bearer " ++ api_key) = true) :
    (summarize input settings tr).2
      = [requestBody (resolvedModel settings) (resolvedPrompt settings) input] := by
  have hsent := make_api_call_sent_of_headerOk input api_key
    (resolvedModel settings) (resolvedPrompt settings) tr hheader
  unfold summarize
  rw [hkey]
  dsimp only
  rcases hmk : make_api_call input api_key (resolvedModel settings)
      (resolvedPrompt settings) tr with ⟨res, sent⟩
  rw [hmk] at hsent
  cases res <;> simpa using hsent

/-- `summarize` forwards the `Result` of `make_api_call`: a success is
returned, an error becomes the `panic!` outcome. -/
theorem summarize_outcome_of_key
    (input api_key : String) (settings : String → SpiResult)
    (tr : Json → TransportResult)
    (hkey : settings "pg_summarizer.api_key" = .ok (some api_key)) :
    (∀ s, (make_api_call input api_key (resolvedModel settings)
        (resolvedPrompt settings) tr).1 = .ok s →
      (summarize input settings tr).1 = .ok s) ∧
    (∀ e, (make_api_call input api_key (resolvedModel settings)
        (resolvedPrompt settings) tr).1 = .error e →
      (summarize input settings tr).1 = .fatal (.apiError e)) := by
  unfold summarize
  rw [hkey]
  rcases hmk : make_api_call input api_key (resolvedModel settings)
      (resolvedPrompt settings) tr with ⟨res, sent⟩
  cases res with
  | ok s => exact ⟨fun t ht => by simp_all, fun e he => by simp_all⟩
  | error e => exact ⟨fun t ht => by simp_all, fun f hf => by simp_all⟩

/-! ## Claim theorems -/

/-- C1: if the settings store returns null (or the lookup errors) for
`pg_summarizer.api_key`, then `summarize` aborts with the corresponding
configuration failure and no request is handed to the transport,
whatever the transport is. -/
theorem c1_missing_api_key_aborts_before_request
    (input : String) (settings : String → SpiResult)
    (tr : Json → TransportResult)
    (h : settings "pg_summarizer.api_key" = .ok none ∨
         settings "pg_summarizer.api_key" = .err) :
    (summarize input settings tr).2 = [] ∧
    (settings "pg_summarizer.api_key" = .ok none →
      (summarize input settings tr).1 = .fatal .nullApiKey) ∧
    (settings "pg_summarizer.api_key" = .err →
      (summarize input settings tr).1 = .fatal .spiErrApiKey) := by
  unfold summarize
  rcases h with h | h <;> rw [h] <;> simp_all

/-- Witness for C1 at a concrete store that answers null for every key. -/
theorem c1_witness :
    (summarize "some text" (fun _ => SpiResult.ok none)
        (fun _ => TransportResult.sendError)).2 = [] ∧
    (summarize "some text" (fun _ => SpiResult.ok none)
        (fun _ => TransportResult.sendError)).1 = .fatal .nullApiKey := by
  have h := c1_missing_api_key_aborts_before_request "some text"
    (fun _ => SpiResult.ok none) (fun _ => TransportResult.sendError)
    (Or.inl rfl)
  exact ⟨h.1, h.2.1 rfl⟩

/-- C2: for every non-empty `user_text`, the user-message content of
the payload is exactly `"<text>" ++ user_text ++ "</text>"`, with no
escaping. -/
theorem c2_user_content_is_wrapped_verbatim
    (user_text model prompt : String) (_h : user_text ≠ "") :
    (((requestBody model prompt user_text).idx "messages").idxN 1).idx
        "content"
      = .str ("<text>" ++ user_text ++ "</text>") := by
  rfl

/-- Witness for C2 at a user text containing unescaped markup. -/
theorem c2_witness :
    ("a <b> & </text>" : String) ≠ "" ∧
    (((requestBody "gpt-4" "sys" "a <b> & </text>").idx "messages").idxN
        1).idx "content"
      = .str ("<text>" ++ "a <b> & </text>" ++ "</text>") :=
  ⟨by decide, c2_user_content_is_wrapped_verbatim "a <b> & </text>" "gpt-4"
    "sys" (by decide)⟩

/-- C6: the payload has the resolved model string as its `model` field
and exactly two messages, system with the prompt verbatim then user with
the wrapped text. -/
theorem c6_payload_shape (user_text model prompt : String) :
    (requestBody model prompt user_text).idx "model" = .str model ∧
    ∃ m1 m2,
      (requestBody model prompt user_text).idx "messages" = .arr [m1, m2] ∧
      m1.idx "role" = .str "system" ∧
      m1.idx "content" = .str prompt ∧
      m2.idx "role" = .str "user" ∧
      m2.idx "content" = .str ("<text>" ++ user_text ++ "</text>") :=
  ⟨rfl, _, _, rfl, rfl, rfl, rfl, rfl⟩

/-- C3: when the transport answers with a success status and a parsed
body containing `choices[0].message.content` as a string, `make_api_call`
returns exactly that string, untrimmed and unmodified. -/
theorem c3_success_returns_content_verbatim
    (input api_key model prompt s : String) (status : Nat) (j : Json)
    (tr : Json → TransportResult)
    (hheader : headerValueOk ("Bearer " ++ api_key) = true)
    (htr : tr (requestBody model prompt input) = .response status (.parsed j))
    (hstatus : statusIsSuccess status = true)
    (hcontent : extractContent j = some s) :
    (make_api_call input api_key model prompt tr).1 = .ok s := by
  unfold make_api_call
  simp [hheader, htr, hstatus, hcontent]

/-- Witness for C3: HTTP 200 with body
`{"choices":[{"message":{"content":"X"}}]}` yields `"X"` (with padding in
the content preserved verbatim in a second instance). -/
theorem c3_witness :
    (make_api_call "txt" "key" "gpt-4" "sys"
        (fun _ => .response 200 (.parsed (.obj [("choices",
          .arr [.obj [("message", .obj [("content", .str "X")])]])])))).1
      = .ok "X" :=
  c3_success_returns_content_verbatim "txt" "key" "gpt-4" "sys" "X" 200
    (.obj [("choices", .arr [.obj [("message", .obj [("content", .str "X")])]])])
    _ (by decide) rfl (by decide) rfl

/-- C4 counterexample: on HTTP 200 with a body that is not parseable
JSON, `make_api_call` fails with the propagated `response.json()?` decode
error, which is a different failure than the
`"Unexpected response format"` error the claim names. -/
theorem c4_counterexample :
    (make_api_call "txt" "key" "gpt-4" "sys"
        (fun _ => .response 200 .invalid)).1 = .error .bodyDecode ∧
    ApiError.bodyDecode ≠ ApiError.responseFormat :=
  ⟨rfl, by decide⟩

/-- C4 amended: on a success status, a body lacking
`choices[0].message.content` as a string fails with the
`"Unexpected response format"` error, while a body that is not parseable
JSON fails with the propagated decode error instead. -/
theorem c4_amended_format_errors
    (input api_key model prompt : String) (status : Nat)
    (tr : Json → TransportResult)
    (hheader : headerValueOk ("Bearer " ++ api_key) = true)
    (hstatus : statusIsSuccess status = true) :
    (tr (requestBody model prompt input) = .response status .invalid →
      (make_api_call input api_key model prompt tr).1 = .error .bodyDecode) ∧
    (∀ j, tr (requestBody model prompt input) = .response status (.parsed j) →
      extractContent j = none →
      (make_api_call input api_key model prompt tr).1
        = .error .responseFormat) := by
  constructor
  · intro htr
    unfold make_api_call
    simp [hheader, htr, hstatus]
  · intro j htr hj
    unfold make_api_call
    simp [hheader, htr, hstatus, hj]

/-- Witness for C4 amended: HTTP 200 with body `{}` fails with the
`"Unexpected response format"` error. -/
theorem c4_amended_witness :
    (make_api_call "txt" "key" "gpt-4" "sys"
        (fun _ => .response 200 (.parsed (.obj [])))).1
      = .error .responseFormat :=
  (c4_amended_format_errors "txt" "key" "gpt-4" "sys" 200
    (fun _ => .response 200 (.parsed (.obj []))) (by decide) (by decide)).2
    (.obj []) rfl rfl

/-- C5: a non-success status fails with the `"Request failed"` error
carrying that status, for every body whatsoever — the status is checked
before the body is parsed or any field is read. -/
theorem c5_non_success_status_error
    (input api_key model prompt : String) (status : Nat) (body : BodyParse)
    (tr : Json → TransportResult)
    (hheader : headerValueOk ("Bearer " ++ api_key) = true)
    (htr : tr (requestBody model prompt input) = .response status body)
    (hstatus : statusIsSuccess status = false) :
    (make_api_call input api_key model prompt tr).1
      = .error (.httpStatus status) := by
  unfold make_api_call
  simp [hheader, htr, hstatus]

/-- Witness for C5: HTTP 401 (with an unparseable body, which is never
looked at) fails with the status error carrying 401. -/
theorem c5_witness :
    (make_api_call "txt" "key" "gpt-4" "sys"
        (fun _ => .response 401 .invalid)).1 = .error (.httpStatus 401) :=
  c5_non_success_status_error "txt" "key" "gpt-4" "sys" 401 .invalid _
    (by decide) rfl (by decide)

/-- C7: when the api key is present (and the header can be built, so a
payload is actually sent), the sent payload's `model` field is
`"gpt-3.5-turbo"` if the `pg_summarizer.model` lookup returned null or
failed, and the setting's value otherwise. -/
theorem c7_model_fallback
    (input api_key : String) (settings : String → SpiResult)
    (tr : Json → TransportResult)
    (hkey : settings "pg_summarizer.api_key" = .ok (some api_key))
    (hheader : headerValueOk ("Bearer " ++ api_key) = true) :
    ∃ r, (summarize input settings tr).2 = [r] ∧
      ((settings "pg_summarizer.model" = .ok none ∨
          settings "pg_summarizer.model" = .err) →
        r.idx "model" = .str "gpt-3.5-turbo") ∧
      (∀ v, settings "pg_summarizer.model" = .ok (some v) →
        r.idx "model" = .str v) := by
  refine ⟨requestBody (resolvedModel settings) (resolvedPrompt settings) input,
    summarize_sent_of_headerOk input api_key settings tr hkey hheader, ?_, ?_⟩
  · rintro (h | h) <;>
      simp [requestBody, Json.idx, Json.lookupField, resolvedModel, h]
  · intro v hv
    simp [requestBody, Json.idx, Json.lookupField, resolvedModel, hv]

/-- Witness for C7 at a store holding only the api key: the sent
payload's model is the fallback. -/
theorem c7_witness :
    ∃ r,
      (summarize "txt"
          (fun k => if k = "pg_summarizer.api_key" then
            SpiResult.ok (some "sk-1") else SpiResult.ok none)
          (fun _ => TransportResult.sendError)).2 = [r] ∧
      r.idx "model" = .str "gpt-3.5-turbo" := by
  obtain ⟨r, h1, h2, _⟩ := c7_model_fallback "txt" "sk-1"
    (fun k => if k = "pg_summarizer.api_key" then
      SpiResult.ok (some "sk-1") else SpiResult.ok none)
    (fun _ => TransportResult.sendError) (by decide) (by decide)
  exact ⟨r, h1, h2 (Or.inl (by decide))⟩

/-- C8: when the api key is present (and the header can be built), the
sent payload's system-message content is the built-in prompt if the
`pg_summarizer.prompt` lookup returned null or failed, and the setting's
value verbatim otherwise. -/
theorem c8_prompt_fallback
    (input api_key : String) (settings : String → SpiResult)
    (tr : Json → TransportResult)
    (hkey : settings "pg_summarizer.api_key" = .ok (some api_key))
    (hheader : headerValueOk ("Bearer " ++ api_key) = true) :
    ∃ r, (summarize input settings tr).2 = [r] ∧
      ((settings "pg_summarizer.prompt" = .ok none ∨
          settings "pg_summarizer.prompt" = .err) →
        ((r.idx "messages").idxN 0).idx "content" = .str defaultPrompt) ∧
      (∀ v, settings "pg_summarizer.prompt" = .ok (some v) →
        ((r.idx "messages").idxN 0).idx "content" = .str v) := by
  refine ⟨requestBody (resolvedModel settings) (resolvedPrompt settings) input,
    summarize_sent_of_headerOk input api_key settings tr hkey hheader, ?_, ?_⟩
  · rintro (h | h) <;>
      simp [requestBody, Json.idx, Json.idxN, Json.lookupField,
        resolvedPrompt, h]
  · intro v hv
    simp [requestBody, Json.idx, Json.idxN, Json.lookupField,
      resolvedPrompt, hv]

/-- Witness for C8 at a store holding only the api key: the sent
payload's system message carries the built-in prompt. -/
theorem c8_witness :
    ∃ r,
      (summarize "txt"
          (fun k => if k = "pg_summarizer.api_key" then
            SpiResult.ok (some "sk-1") else SpiResult.ok none)
          (fun _ => TransportResult.sendError)).2 = [r] ∧
      ((r.idx "messages").idxN 0).idx "content" = .str defaultPrompt := by
  obtain ⟨r, h1, h2, _⟩ := c8_prompt_fallback "txt" "sk-1"
    (fun k => if k = "pg_summarizer.api_key" then
      SpiResult.ok (some "sk-1") else SpiResult.ok none)
    (fun _ => TransportResult.sendError) (by decide) (by decide)
  exact ⟨r, h1, h2 (Or.inl (by decide))⟩

/-- C9: every failure — Spi error or null for the api key, and every
error of `make_api_call` (header construction, send, body decode,
status, response format) — makes `summarize` abort rather than return a
value. -/
theorem c9_all_failures_abort
    (input : String) (settings : String → SpiResult)
    (tr : Json → TransportResult) :
    (settings "pg_summarizer.api_key" = .err →
      (summarize input settings tr).1 = .fatal .spiErrApiKey) ∧
    (settings "pg_summarizer.api_key" = .ok none →
      (summarize input settings tr).1 = .fatal .nullApiKey) ∧
    (∀ api_key e, settings "pg_summarizer.api_key" = .ok (some api_key) →
      (make_api_call input api_key (resolvedModel settings)
          (resolvedPrompt settings) tr).1 = .error e →
      (summarize input settings tr).1 = .fatal (.apiError e)) := by
  refine ⟨?_, ?_, ?_⟩
  · intro h; unfold summarize; rw [h]
  · intro h; unfold summarize; rw [h]
  · intro api_key e hkey hmk
    exact (summarize_outcome_of_key input api_key settings tr hkey).2 e hmk

/-- Witness for C9: a transport-level send failure surfaces as the
abort outcome. -/
theorem c9_witness :
    (summarize "txt"
        (fun k => if k = "pg_summarizer.api_key" then
          SpiResult.ok (some "sk-1") else SpiResult.err)
        (fun _ => TransportResult.sendError)).1
      = .fatal (.apiError .sendFailed) :=
  (c9_all_failures_abort "txt"
    (fun k => if k = "pg_summarizer.api_key" then
      SpiResult.ok (some "sk-1") else SpiResult.err)
    (fun _ => TransportResult.sendError)).2.2 "sk-1" .sendFailed (by decide)
    rfl

/-- C10: extraction of `choices[0].message.content` is total over all
JSON trees: on a success status the call either returns the extracted
string or takes the `"Unexpected response format"` branch; the result
depends only on the `choices` field; and non-object roots, empty arrays,
non-array `choices`, missing `message` and non-string `content` all take
the error branch. -/
theorem c10_extraction_total
    (input api_key model prompt : String) (status : Nat) (j : Json)
    (tr : Json → TransportResult)
    (hheader : headerValueOk ("Bearer " ++ api_key) = true)
    (htr : tr (requestBody model prompt input) = .response status (.parsed j))
    (hstatus : statusIsSuccess status = true) :
    ((∃ s, extractContent j = some s ∧
        (make_api_call input api_key model prompt tr).1 = .ok s) ∨
      (extractContent j = none ∧
        (make_api_call input api_key model prompt tr).1
          = .error .responseFormat)) ∧
    (∀ j₁ j₂ : Json, j₁.idx "choices" = j₂.idx "choices" →
      extractContent j₁ = extractContent j₂) ∧
    extractContent .null = none ∧
    extractContent (.num 1) = none ∧
    extractContent (.arr []) = none ∧
    extractContent (.obj []) = none ∧
    extractContent (.obj [("choices", .str "x")]) = none ∧
    extractContent (.obj [("choices", .arr [])]) = none ∧
    extractContent (.obj [("choices", .arr [.obj []])]) = none ∧
    extractContent (.obj [("choices",
      .arr [.obj [("message", .obj [("content", .num 3)])]])]) = none := by
  refine ⟨?_, ?_, rfl, rfl, rfl, rfl, rfl, rfl, rfl, rfl⟩
  · cases hc : extractContent j with
    | some s =>
      refine Or.inl ⟨s, rfl, ?_⟩
      unfold make_api_call
      simp [hheader, htr, hstatus, hc]
    | none =>
      refine Or.inr ⟨rfl, ?_⟩
      unfold make_api_call
      simp [hheader, htr, hstatus, hc]
  · intro j₁ j₂ hch
    unfold extractContent
    rw [hch]

/-- Witness for C10 at body `{}` and status 204. -/
theorem c10_witness :
    (∃ s, extractContent (Json.obj []) = some s ∧
        (make_api_call "txt" "key" "gpt-4" "sys"
          (fun _ => .response 204 (.parsed (.obj [])))).1 = .ok s) ∨
      (extractContent (Json.obj []) = none ∧
        (make_api_call "txt" "key" "gpt-4" "sys"
          (fun _ => .response 204 (.parsed (.obj [])))).1
          = .error .responseFormat) :=
  (c10_extraction_total "txt" "key" "gpt-4" "sys" 204 (.obj []) _
    (by decide) rfl (by decide)).1
